import Mathlib

/-!
Verification of the XYZ/Web-Mercator tile-mosaic compositor of
`leafmap` (`map_tiles_to_geotiff` and its inner helpers in
`src/leafmap/common.py`).

The Python functions are shallowly embedded:
* exact decimal constants and rational arithmetic replace Python floats
  where the code only ever divides/compares decimal literals (`ℚ`);
* the transcendental slippy-map / Mercator formulas are embedded over `ℝ`;
* Python lists/tuples become Lean lists/structures;
* functions that raise exceptions return `Except String _`;
* in-place mutation (the canvas, the `base_size` list) becomes explicit
  state passing: `paste_tile` returns the new canvas, the new base size,
  and additionally records whether it actually pasted the tile (the
  mutation event of `newim.paste`).

PIL images are modelled by `Img`: a mode, a size and a per-band pixel
function.  The model restricts image modes to the two modes the
compositor distinguishes (`RGB` and everything else, composited as
`RGBA`), which are also the only modes the claims mention.
-/

namespace Leafmap

/-- Web Mercator tile size in meters at zoom level 0
(`MERCATOR_ZOOM_0_RESOLUTION_M` in the source), as an exact rational. -/
def MERCATOR_ZOOM_0_RESOLUTION_M : ℚ := 156543.03392804097

/-- `resolution_to_zoom_level(resolution)` from the source:
`int(math.log2(initial_resolution / resolution))`.  Python `int()`
truncates toward zero, which is `⌊log₂ q⌋ = Int.log 2 q` for `q ≥ 1`
and `⌈log₂ q⌉ = Int.clog 2 q` for `0 < q < 1`. -/
def resolution_to_zoom_level (resolution : ℚ) : ℤ :=
  if 1 ≤ MERCATOR_ZOOM_0_RESOLUTION_M / resolution then
    Int.log 2 (MERCATOR_ZOOM_0_RESOLUTION_M / resolution)
  else
    Int.clog 2 (MERCATOR_ZOOM_0_RESOLUTION_M / resolution)

/-- `zoom_level_to_resolution(zoom)` from the source:
`initial_resolution / (2**zoom)`. -/
def zoom_level_to_resolution (zoom : ℤ) : ℚ :=
  MERCATOR_ZOOM_0_RESOLUTION_M / 2 ^ zoom

/-- The input-validation prefix of `map_tiles_to_geotiff` (everything the
function checks about `bbox`, `zoom` and `resolution` before any tile URL
is built): the bbox must be a list of exactly 4 coordinates, and exactly
one of `zoom`/`resolution` must be supplied (the other is derived).
Returns the zoom level used by `draw_tile` on success.  The source
performs no west/east or south/north ordering check. -/
def validateBboxZoom (bbox : List ℚ) (zoom : Option ℤ) (resolution : Option ℚ) :
    Except String ℤ :=
  match bbox with
  | [_west, _south, _east, _north] =>
    match zoom, resolution with
    | none, none => .error "Either zoom or resolution must be provided"
    | some _, some _ => .error "Only one of zoom or resolution can be provided"
    | none, some r => .ok (resolution_to_zoom_level r)
    | some z, none => .ok z
  | _ => .error "bbox must be a list of 4 coordinates"

/-- `deg2num(lat, lon, zoom)` from the source: fractional slippy-map tile
coordinates.  `math.radians(lat)` is `lat * π / 180`. -/
noncomputable def deg2num (lat lon : ℝ) (zoom : ℕ) : ℝ × ℝ :=
  let lat_r := lat * Real.pi / 180
  let n : ℝ := 2 ^ zoom
  ((lon + 180) / 360 * n,
   (1 - Real.log (Real.tan lat_r + 1 / Real.cos lat_r) / Real.pi) / 2 * n)

/-- Python `range(a, b)` over integers. -/
def intRange (a b : ℤ) : List ℤ :=
  (List.range (b - a).toNat).map fun i : ℕ => a + (i : ℤ)

/-- Python `sorted([a, b])` for a two-element list. -/
noncomputable def sortPair (a b : ℝ) : ℝ × ℝ :=
  if a ≤ b then (a, b) else (b, a)

/-- The `corners` tuple computed by `draw_tile(source, lat0, lon0, lat1,
lon1, zoom, ...)`: the fractional `deg2num` results at the two bbox
corners are sorted per axis, and the grid is
`itertools.product(range(floor(x0), ceil(x1)), range(floor(y0), ceil(y1)))`.
`draw_tile` submits one `get_tile` HTTP request per element of this list,
so a nonempty list means tile requests are issued. -/
noncomputable def drawTileCorners (lat0 lon0 lat1 lon1 : ℝ) (zoom : ℕ) :
    List (ℤ × ℤ) :=
  let p0 := deg2num lat0 lon0 zoom
  let p1 := deg2num lat1 lon1 zoom
  let xs := sortPair p0.1 p1.1
  let ys := sortPair p0.2 p1.2
  (intRange ⌊xs.1⌋ ⌈xs.2⌉).flatMap fun x =>
    (intRange ⌊ys.1⌋ ⌈ys.2⌉).map fun y => (x, y)

/-- Modelled from the spec sentence of C6: `deg2num` as the spec states
it (`n = 2^zoom; xtile = (lon+180)/360 * n;
ytile = (1 - ln(tan(lat_rad) + sec(lat_rad))/π)/2 * n`), with the secant
written as the inverse cosine. -/
noncomputable def spec_deg2num (lat lon : ℝ) (zoom : ℕ) : ℝ × ℝ :=
  let lat_r := lat * Real.pi / 180
  let n : ℝ := 2 ^ zoom
  ((lon + 180) / 360 * n,
   (1 - Real.log (Real.tan lat_r + (Real.cos lat_r)⁻¹) / Real.pi) / 2 * n)

/-- The tile grid as claim C6 states it: the Cartesian product
`range(floor(x0), ceil(x1)) × range(floor(y0), ceil(y1))` where
`(x0, y0)` and `(x1, y1)` are the fractional `spec_deg2num` results at
the two bbox corners, sorted per axis (`x0 ≤ x1`, `y0 ≤ y1`). -/
noncomputable def spec_tileGrid (lat0 lon0 lat1 lon1 : ℝ) (zoom : ℕ) :
    List (ℤ × ℤ) :=
  let p0 := spec_deg2num lat0 lon0 zoom
  let p1 := spec_deg2num lat1 lon1 zoom
  let x0 := min p0.1 p1.1
  let x1 := max p0.1 p1.1
  let y0 := min p0.2 p1.2
  let y1 := max p0.2 p1.2
  (intRange ⌊x0⌋ ⌈x1⌉).flatMap fun x =>
    (intRange ⌊y0⌋ ⌈y1⌉).map fun y => (x, y)

/-- `EARTH_EQUATORIAL_RADIUS` from the source. -/
def EARTH_EQUATORIAL_RADIUS : ℝ := 6378137.0

/-- `from4326_to3857(lat, lon)` from the source:
`(radians(lon) * R, log(tan(radians(45 + lat/2))) * R)`. -/
noncomputable def from4326_to3857 (lat lon : ℝ) : ℝ × ℝ :=
  (lon * Real.pi / 180 * EARTH_EQUATORIAL_RADIUS,
   Real.log (Real.tan ((45 + lat / 2) * Real.pi / 180)) * EARTH_EQUATORIAL_RADIUS)

/-- The geotransform computed at the end of `draw_tile`:
`(min(xp0, xp1), pwidth, 0, max(yp0, yp1), 0, -pheight)` with
`pwidth = abs(xp1 - xp0) / img.size[0]` and
`pheight = abs(yp1 - yp0) / img.size[1]`, where `(xp0, yp0)` and
`(xp1, yp1)` are `from4326_to3857` at the two requested bbox corners. -/
noncomputable def drawTileGeoTransform (lat0 lon0 lat1 lon1 : ℝ) (w h : ℕ) :
    ℝ × ℝ × ℝ × ℝ × ℝ × ℝ :=
  let p0 := from4326_to3857 lat0 lon0
  let p1 := from4326_to3857 lat1 lon1
  let pwidth := |p1.1 - p0.1| / w
  let pheight := |p1.2 - p0.2| / h
  (min p0.1 p1.1, pwidth, 0, max p0.2 p1.2, 0, -pheight)

/-- Modelled from the spec sentence of C7: spherical Mercator with Earth
radius 6378137.0 m, `x = R·λ`, `y = R·ln(tan(π/4 + φ/2))` with `λ`, `φ`
the longitude/latitude in radians. -/
noncomputable def spec_sphericalMercator (lat lon : ℝ) : ℝ × ℝ :=
  ((6378137.0 : ℝ) * (lon * Real.pi / 180),
   (6378137.0 : ℝ) * Real.log (Real.tan (Real.pi / 4 + lat * Real.pi / 180 / 2)))

/-- The geotransform as claim C7 states it:
`(min(x0_m, x1_m), pixel_width, 0, max(y0_m, y1_m), 0, -pixel_height)`
with `pixel_width = |x1_m - x0_m| / canvas_width_px` and
`pixel_height = |y1_m - y0_m| / canvas_height_px`, the corners projected
by `spec_sphericalMercator`. -/
noncomputable def spec_geoTransform (lat0 lon0 lat1 lon1 : ℝ) (w h : ℕ) :
    ℝ × ℝ × ℝ × ℝ × ℝ × ℝ :=
  let p0 := spec_sphericalMercator lat0 lon0
  let p1 := spec_sphericalMercator lat1 lon1
  let pwidth := |p1.1 - p0.1| / w
  let pheight := |p1.2 - p0.2| / h
  (min p0.1 p1.1, pwidth, 0, max p0.2 p1.2, 0, -pheight)

/-- PIL image modes as the compositor distinguishes them: `RGB`, or
anything else (composited as `RGBA`). -/
inductive Mode : Type
  | RGB
  | RGBA
  deriving DecidableEq

/-- Number of bands (`len(im.getextrema())`) of a mode. -/
def Mode.bands : Mode → ℕ
  | .RGB => 3
  | .RGBA => 4

/-- A PIL image: mode, size `(w, h)`, and per-band pixel data
(`im.px x y band`, 8-bit values). -/
structure Img where
  mode : Mode
  w : ℕ
  h : ℕ
  px : ℕ → ℕ → ℕ → ℕ

/-- All values of one band, in row-major order. -/
def Img.bandValues (im : Img) (band : ℕ) : List ℕ :=
  (List.range im.h).flatMap fun y => (List.range im.w).map fun x => im.px x y band

/-- `im.getextrema()`: the per-band `(min, max)` value pairs. -/
def Img.getextrema (im : Img) : List (ℕ × ℕ) :=
  (List.range im.mode.bands).map fun band =>
    (((im.bandValues band).min?).getD 0, ((im.bandValues band).max?).getD 0)

/-- `is_empty(im)` from the source: with at least 3 bands, an image is
empty when its last band is constantly 0 while having more than 3 bands
(fully transparent alpha), or when its first 3 bands are all constantly
0; with fewer bands, when the single extrema pair is `(0, 0)`. -/
def is_empty (im : Img) : Bool :=
  let extrema := im.getextrema
  if 3 ≤ extrema.length then
    if 3 < extrema.length ∧ extrema.getLastD (0, 0) = (0, 0) then true
    else (extrema.take 3).all fun ext => decide (ext = (0, 0))
  else decide (extrema.headD (0, 0) = (0, 0))

/-- `im.convert(mode)`: RGB→RGBA adds a constant 255 (opaque) alpha
band; RGBA→RGB drops the alpha band; converting to the current mode is
the identity. -/
def Img.convert (im : Img) (m : Mode) : Img :=
  if im.mode = m then im
  else
    match m with
    | .RGBA => ⟨.RGBA, im.w, im.h, fun x y band => if band = 3 then 255 else im.px x y band⟩
    | .RGB => ⟨.RGB, im.w, im.h, im.px⟩

/-- `Image.new(mode, size)`: a new image with all bands zero (black and,
for RGBA, fully transparent). -/
def Image_new (m : Mode) (w h : ℕ) : Img := ⟨m, w, h, fun _ _ _ => 0⟩

/-- `canvas.paste(im, xy)`: PIL converts `im` to the canvas mode when the
modes differ (the compositor never passes a mask), then replaces the
pixel rectangle at offset `xy`. -/
def Img.paste (canvas : Img) (im : Img) (xy : ℕ × ℕ) : Img :=
  let im2 := im.convert canvas.mode
  ⟨canvas.mode, canvas.w, canvas.h, fun x y band =>
    if xy.1 ≤ x ∧ x < xy.1 + im2.w ∧ xy.2 ≤ y ∧ y < xy.2 + im2.h then
      im2.px (x - xy.1) (y - xy.2) band
    else canvas.px x y band⟩

/-- The integer tile-aligned bbox
`(floor(x0), floor(y0), ceil(x1), ceil(y1))` that `draw_tile` passes to
`paste_tile` and `finish_picture`. -/
structure TileBbox where
  x0 : ℤ
  y0 : ℤ
  x1 : ℤ
  y1 : ℤ

/-- Result of one `paste_tile` call: the canvas (`bigim`), the
`base_size` state, and whether `newim.paste` was invoked for this tile
(the Python function communicates the paste event only through the
mutation of the canvas; the flag makes it observable). -/
structure PasteResult where
  canvas : Option Img
  base : ℕ × ℕ
  pasted : Bool

/-- `paste_tile(bigim, base_size, tile, corner_xy, bbox)` from the
source.  A `none` tile (fetch returned `None`) leaves everything
unchanged.  The canvas is allocated lazily on the first decoded tile,
with mode `RGB` iff that tile's mode is `"RGB"` (anything else gives
`"RGBA"`).  RGB tiles are pasted unconditionally; other tiles are
converted to RGBA and pasted only when not `is_empty`. -/
def paste_tile (bigim : Option Img) (base_size : ℕ × ℕ) (tile : Option Img)
    (corner_xy : ℤ × ℤ) (bbox : TileBbox) : PasteResult :=
  match tile with
  | none => ⟨bigim, base_size, false⟩
  | some im =>
    let mode : Mode := if im.mode = Mode.RGB then .RGB else .RGBA
    let size : ℕ × ℕ := (im.w, im.h)
    let alloc : Img × (ℕ × ℕ) :=
      match bigim with
      | none =>
        (Image_new mode (size.1 * (bbox.x1 - bbox.x0).toNat)
          (size.2 * (bbox.y1 - bbox.y0).toNat), size)
      | some b => (b, base_size)
    let newim := alloc.1
    let dx := (corner_xy.1 - bbox.x0).natAbs
    let dy := (corner_xy.2 - bbox.y0).natAbs
    let xy0 : ℕ × ℕ := (size.1 * dx, size.2 * dy)
    if mode = Mode.RGB then ⟨some (newim.paste im xy0), alloc.2, true⟩
    else
      let im2 := if im.mode ≠ mode then im.convert mode else im
      if is_empty im2 then ⟨some newim, alloc.2, false⟩
      else ⟨some (newim.paste im2 xy0), alloc.2, true⟩

/-- The canvas `paste_tile` pastes onto: the existing canvas, or the
lazily allocated `Image.new` canvas sized by the first decoded tile. -/
def allocCanvas (bigim : Option Img) (im : Img) (bbox : TileBbox) : Img :=
  match bigim with
  | some b => b
  | none =>
    Image_new (if im.mode = Mode.RGB then Mode.RGB else Mode.RGBA)
      (im.w * (bbox.x1 - bbox.x0).toNat) (im.h * (bbox.y1 - bbox.y0).toNat)

/-- One iteration of the compositing loop in `draw_tile`
(`bigim = paste_tile(bigim, base_size, fut.result(), corner_xy, bbox)`),
with the canvas and `base_size` threaded explicitly. -/
def compositeStep (bbox : TileBbox) (acc : Option Img × (ℕ × ℕ))
    (t : Option Img × (ℤ × ℤ)) : Option Img × (ℕ × ℕ) :=
  let r := paste_tile acc.1 acc.2 t.1 t.2 bbox
  (r.canvas, r.base)

/-- The compositing loop of `draw_tile` over the decoded tiles (in
corner order), starting from no canvas and `base_size = [256, 256]`. -/
def composite (tiles : List (Option Img × (ℤ × ℤ))) (bbox : TileBbox) :
    Option Img × (ℕ × ℕ) :=
  tiles.foldl (compositeStep bbox) (none, (256, 256))

/-- Python `round`: nearest integer, ties to the even neighbour. -/
noncomputable def pyRound (x : ℝ) : ℤ :=
  if Int.fract x < 1 / 2 then ⌊x⌋
  else if 1 / 2 < Int.fract x then ⌊x⌋ + 1
  else if Even ⌊x⌋ then ⌊x⌋ else ⌊x⌋ + 1

/-- `im.crop((x2, y2, x2 + w, y2 + h))`: pixels outside the source image
are zero-filled. -/
def Img.crop (b : Img) (x2 y2 : ℤ) (w h : ℕ) : Img :=
  ⟨b.mode, w, h, fun x y band =>
    if 0 ≤ x2 + (x : ℤ) ∧ x2 + (x : ℤ) < (b.w : ℤ) ∧
        0 ≤ y2 + (y : ℤ) ∧ y2 + (y : ℤ) < (b.h : ℤ) then
      b.px (x2 + (x : ℤ)).toNat (y2 + (y : ℤ)).toNat band
    else 0⟩

/-- The exception raised by `finish_picture` when `bigim` is `None`
(zero tiles decoded): the attribute access `bigim.crop` fails. -/
def attribute_error_msg : String :=
  "AttributeError: NoneType has no attribute crop"

/-- `finish_picture(bigim, base_size, bbox, x0, y0, x1, y1)` from the
source: crop the canvas to the exact fractional bbox window, and convert
RGBA to RGB when the alpha band is constantly 255.  When `bigim` is
`None` (zero tiles decoded), the `.crop` attribute access raises. -/
noncomputable def finish_picture (bigim : Option Img) (base_size : ℕ × ℕ)
    (bbox : TileBbox) (x0 y0 x1 y1 : ℝ) : Except String Img :=
  match bigim with
  | none => .error attribute_error_msg
  | some b =>
    let xfrac := x0 - (bbox.x0 : ℝ)
    let yfrac := y0 - (bbox.y0 : ℝ)
    let x2 := pyRound ((base_size.1 : ℝ) * xfrac)
    let y2 := pyRound ((base_size.2 : ℝ) * yfrac)
    let imgw := pyRound ((base_size.1 : ℝ) * (x1 - x0))
    let imgh := pyRound ((base_size.2 : ℝ) * (y1 - y0))
    let retim := b.crop x2 y2 imgw.toNat imgh.toNat
    let retim2 :=
      if retim.mode = Mode.RGBA ∧ retim.getextrema.getD 3 (0, 0) = (255, 255) then
        retim.convert Mode.RGB
      else retim
    .ok retim2

/-- The composite-then-finish tail of `draw_tile` (everything between the
fetch barrier and the GeoTIFF write).  The raster file is created only
when this returns `ok`: `driver.Create` is reached only after
`finish_picture` returns normally. -/
noncomputable def drawTileSave (tiles : List (Option Img × (ℤ × ℤ)))
    (bbox : TileBbox) (x0 y0 x1 y1 : ℝ) : Except String Img :=
  let acc := composite tiles bbox
  finish_picture acc.1 acc.2 bbox x0 y0 x1 y1

/-- An HTTP response: status code and body bytes. -/
structure HttpResponse where
  status : ℕ
  content : List ℕ
  deriving DecidableEq

/-- The transport exception re-raised by `get_tile` when the retry
budget is exhausted. -/
def transport_error_msg : String := "ConnectError: transport failure"

/-- The exception raised by `r.raise_for_status()` on an error status
with a nonempty body. -/
def http_status_error_msg : String := "HTTPStatusError: error response"

/-- The retry loop of `get_tile`: `retry = 3; while 1: try: r =
SESSION.get(url, timeout=60); break; except: retry -= 1; if not retry:
raise`.  `attempts i` is the outcome of the `i`-th `SESSION.get` call
(`error` = transport exception); exactly `fuel` attempts are made before
the last exception propagates, and `get_tile` enters with `fuel = 3`. -/
def sessionGetLoop (attempts : ℕ → Except Unit HttpResponse) :
    ℕ → ℕ → Except String HttpResponse
  | 0, _ => .error transport_error_msg
  | fuel + 1, i =>
    match attempts i with
    | .ok r => .ok r
    | .error _ => sessionGetLoop attempts fuel (i + 1)

/-- `get_tile(url)` from the source: up to 3 transport attempts; then
`status == 404 → None`, `empty body → None`, `raise_for_status()`
(raises for status ≥ 400), else the body bytes. -/
def get_tile (attempts : ℕ → Except Unit HttpResponse) :
    Except String (Option (List ℕ)) :=
  match sessionGetLoop attempts 3 0 with
  | .error e => .error e
  | .ok r =>
    if r.status = 404 then .ok none
    else if r.content = [] then .ok none
    else if 400 ≤ r.status then .error http_status_error_msg
    else .ok (some r.content)

/-- Whether an `Except` result is a success. -/
def exceptOk {α : Type} : Except String α → Bool
  | .ok _ => true
  | .error _ => false

/-- The result-collection loop of `draw_tile`
(`fut.result()` for each future, in corner order): the first tile whose
fetch raised re-raises and aborts the whole operation. -/
def fetchAll {α : Type} : List (Except String α) → Except String (List α)
  | [] => .ok []
  | r :: rest =>
    match r with
    | .error e => .error e
    | .ok a =>
      match fetchAll rest with
      | .error e => .error e
      | .ok rest2 => .ok (a :: rest2)

/-- A 1×1 solid RGB tile (all bands 5). -/
def rgbTile : Img := ⟨Mode.RGB, 1, 1, fun _ _ _ => 5⟩

/-- A 1×1 solid RGBA tile (all bands 200). -/
def rgbaTile : Img := ⟨Mode.RGBA, 1, 1, fun _ _ _ => 200⟩

/-- A 1×1 all-black RGB tile (all bands 0). -/
def blackRGBTile : Img := ⟨Mode.RGB, 1, 1, fun _ _ _ => 0⟩

/-- A 2×1 tile-aligned bbox. -/
def demoBbox : TileBbox := ⟨0, 0, 2, 1⟩

/-- Two decoded demo tiles: first RGB, second RGBA. -/
def demoTiles : List (Option Img × (ℤ × ℤ)) :=
  [(some rgbTile, (0, 0)), (some rgbaTile, (1, 0))]

end Leafmap

namespace Leafmap

/-- C1 counterexample input: `r = (2/3) * MERCATOR_ZOOM_0_RESOLUTION_M`
lies in `(0, MERCATOR_ZOOM_0_RESOLUTION_M]`, yet the zoom/resolution
round trip yields `MERCATOR_ZOOM_0_RESOLUTION_M > r` — the claimed
inequality `≤ r` fails. -/
theorem c1_counterexample :
    0 < (2 / 3) * MERCATOR_ZOOM_0_RESOLUTION_M ∧
    (2 / 3) * MERCATOR_ZOOM_0_RESOLUTION_M ≤ MERCATOR_ZOOM_0_RESOLUTION_M ∧
    ¬ zoom_level_to_resolution
        (resolution_to_zoom_level ((2 / 3) * MERCATOR_ZOOM_0_RESOLUTION_M)) ≤
      (2 / 3) * MERCATOR_ZOOM_0_RESOLUTION_M := by
  have hdiv : MERCATOR_ZOOM_0_RESOLUTION_M / ((2 / 3) * MERCATOR_ZOOM_0_RESOLUTION_M)
      = 3 / 2 := by
    norm_num [MERCATOR_ZOOM_0_RESOLUTION_M]
  have hzoom : resolution_to_zoom_level ((2 / 3) * MERCATOR_ZOOM_0_RESOLUTION_M) = 0 := by
    rw [resolution_to_zoom_level, hdiv, if_pos (by norm_num)]
    rw [Int.log_of_one_le_right 2 (by norm_num)]
    have hfl : ⌊(3 / 2 : ℚ)⌋₊ = 1 := by
      rw [Nat.floor_eq_iff (by norm_num)]
      norm_num
    rw [hfl, Nat.log_one_right, Int.ofNat_zero]
  refine ⟨by norm_num [MERCATOR_ZOOM_0_RESOLUTION_M],
          by norm_num [MERCATOR_ZOOM_0_RESOLUTION_M], ?_⟩
  rw [hzoom, zoom_level_to_resolution]
  norm_num [MERCATOR_ZOOM_0_RESOLUTION_M]

/-- C1 (amended): for every resolution `r` in
`(0, MERCATOR_ZOOM_0_RESOLUTION_M]`, the round trip
`zoom_level_to_resolution (resolution_to_zoom_level r)` yields a
resolution that is greater than or equal to `r` (the zoom level is
floored, so the reconstructed resolution is coarser-or-equal). -/
theorem c1_roundtrip_ge (r : ℚ) (h0 : 0 < r)
    (hM : r ≤ MERCATOR_ZOOM_0_RESOLUTION_M) :
    r ≤ zoom_level_to_resolution (resolution_to_zoom_level r) := by
  have hMpos : (0 : ℚ) < MERCATOR_ZOOM_0_RESOLUTION_M := by
    norm_num [MERCATOR_ZOOM_0_RESOLUTION_M]
  have hq : (1 : ℚ) ≤ MERCATOR_ZOOM_0_RESOLUTION_M / r := (one_le_div h0).mpr hM
  rw [resolution_to_zoom_level, if_pos hq]
  set k := Int.log 2 (MERCATOR_ZOOM_0_RESOLUTION_M / r) with hk
  have hlog : (2 : ℚ) ^ k ≤ MERCATOR_ZOOM_0_RESOLUTION_M / r :=
    Int.zpow_log_le_self (by norm_num) (div_pos hMpos h0)
  have h2k : (0 : ℚ) < 2 ^ k := zpow_pos (by norm_num) k
  rw [zoom_level_to_resolution, le_div_iff₀ h2k]
  calc r * 2 ^ k ≤ r * (MERCATOR_ZOOM_0_RESOLUTION_M / r) :=
        mul_le_mul_of_nonneg_left hlog h0.le
    _ = MERCATOR_ZOOM_0_RESOLUTION_M := by field_simp

/-- Witness for `c1_roundtrip_ge` at the concrete resolution `100`. -/
theorem c1_roundtrip_ge_witness :
    0 < (100 : ℚ) ∧ (100 : ℚ) ≤ MERCATOR_ZOOM_0_RESOLUTION_M ∧
    (100 : ℚ) ≤ zoom_level_to_resolution (resolution_to_zoom_level 100) :=
  ⟨by norm_num, by norm_num [MERCATOR_ZOOM_0_RESOLUTION_M],
    c1_roundtrip_ge 100 (by norm_num) (by norm_num [MERCATOR_ZOOM_0_RESOLUTION_M])⟩

/-- The code-side `deg2num` agrees with the spec-side formula. -/
theorem deg2num_eq_spec (lat lon : ℝ) (zoom : ℕ) :
    deg2num lat lon zoom = spec_deg2num lat lon zoom := by
  simp only [deg2num, spec_deg2num, one_div]

/-- `sorted([a, b])` returns `(min a b, max a b)`. -/
theorem sortPair_eq_min_max (a b : ℝ) : sortPair a b = (min a b, max a b) := by
  unfold sortPair
  split
  · next h => rw [min_eq_left h, max_eq_right h]
  · next h =>
    have h2 := le_of_not_le h
    rw [min_eq_right h2, max_eq_left h2]

/-- An integer between the bounds is a member of `intRange`. -/
theorem mem_intRange {a b x : ℤ} (h1 : a ≤ x) (h2 : x < b) :
    x ∈ intRange a b := by
  unfold intRange
  apply List.mem_map.mpr
  refine ⟨(x - a).toNat, ?_, ?_⟩
  · have hlt : (x - a).toNat < (b - a).toNat := by omega
    exact List.mem_range.mpr hlt
  · omega

/-- C2 counterexample: with `bbox = [10, 0, 5, 45]` (so `west = 10 ≥
east = 5`) and `zoom = 0`, the input validation of
`map_tiles_to_geotiff` succeeds (no input-validation error is raised),
and `draw_tile` computes a nonempty corner grid, so tile HTTP requests
are issued for the invalid bbox: the claimed fail-fast validation does
not exist in the code. -/
theorem c2_counterexample :
    validateBboxZoom [10, 0, 5, 45] (some 0) none = Except.ok 0 ∧
    drawTileCorners 0 10 45 5 0 ≠ [] := by
  refine ⟨rfl, ?_⟩
  have h0 : deg2num 0 10 0 = ((19 : ℝ) / 36, (1 : ℝ) / 2) := by
    simp [deg2num, Real.tan_zero, Real.cos_zero, Real.log_one]
    norm_num
  set y45 : ℝ := (1 - Real.log (1 + Real.sqrt 2) / Real.pi) / 2 with hy45def
  have hsec : 1 / Real.cos (Real.pi / 4) = Real.sqrt 2 := by
    rw [Real.cos_pi_div_four, one_div_div, div_eq_iff (by positivity)]
    exact (Real.mul_self_sqrt (by norm_num)).symm
  have harg : (45 : ℝ) * Real.pi / 180 = Real.pi / 4 := by ring
  have h1 : deg2num 45 5 0 = ((37 : ℝ) / 72, y45) := by
    simp [deg2num, harg, Real.tan_pi_div_four, hsec]
    norm_num
  have hlogpos : 0 < Real.log (1 + Real.sqrt 2) := by
    have hs : (0 : ℝ) < Real.sqrt 2 := Real.sqrt_pos.mpr (by norm_num)
    exact Real.log_pos (by linarith)
  have hdivpos : 0 < Real.log (1 + Real.sqrt 2) / Real.pi :=
    div_pos hlogpos Real.pi_pos
  have hy45lt : y45 < 1 / 2 := by rw [hy45def]; linarith
  have hxs : sortPair ((19 : ℝ) / 36) ((37 : ℝ) / 72) = ((37 : ℝ) / 72, (19 : ℝ) / 36) := by
    rw [sortPair, if_neg (by norm_num)]
  have hys : sortPair ((1 : ℝ) / 2) y45 = (y45, (1 : ℝ) / 2) := by
    rw [sortPair, if_neg (not_le.mpr hy45lt)]
  have hfx : ⌊(37 : ℝ) / 72⌋ = 0 := by
    rw [Int.floor_eq_iff]
    norm_num
  have hcx : ⌈(19 : ℝ) / 36⌉ = 1 := by
    rw [Int.ceil_eq_iff]
    norm_num
  have hcy : ⌈(1 : ℝ) / 2⌉ = 1 := by
    rw [Int.ceil_eq_iff]
    norm_num
  have hfy : ⌊y45⌋ ≤ 0 := by
    have : ⌊y45⌋ < 1 := Int.floor_lt.mpr (by push_cast; linarith)
    omega
  have hgrid : drawTileCorners 0 10 45 5 0 =
      (intRange 0 1).flatMap fun x => (intRange ⌊y45⌋ 1).map fun y => (x, y) := by
    simp only [drawTileCorners, h0, h1, hxs, hys, hfx, hcx, hcy]
  rw [hgrid]
  apply List.ne_nil_of_mem (a := ((0 : ℤ), (0 : ℤ)))
  exact List.mem_flatMap.mpr
    ⟨0, mem_intRange le_rfl (by norm_num),
      List.mem_map.mpr ⟨0, mem_intRange hfy (by norm_num), rfl⟩⟩

/-- C2 (amended): `map_tiles_to_geotiff` validates only the bbox arity
and the zoom/resolution exclusivity; a 4-element bbox passes the input
validation regardless of the ordering of west/east and south/north, so
no input-validation error is raised for `west ≥ east` or
`south ≥ north` before tile requests. -/
theorem c2_no_bbox_ordering_validation (west south east north : ℚ) (z : ℤ) :
    validateBboxZoom [west, south, east, north] (some z) none = Except.ok z := rfl

/-- C6: for every bbox corner pair and zoom, the corner grid computed by
`draw_tile` is exactly the Cartesian product
`range(floor(x0), ceil(x1)) × range(floor(y0), ceil(y1))` of the sorted
fractional `deg2num` results, as the spec states it. -/
theorem c6_grid (lat0 lon0 lat1 lon1 : ℝ) (zoom : ℕ) :
    drawTileCorners lat0 lon0 lat1 lon1 zoom =
      spec_tileGrid lat0 lon0 lat1 lon1 zoom := by
  simp only [drawTileCorners, spec_tileGrid, deg2num_eq_spec, sortPair_eq_min_max]

/-- The code-side Web-Mercator projection agrees with the spec-side
spherical Mercator with Earth radius 6378137.0 m. -/
theorem from4326_to3857_eq_spec (lat lon : ℝ) :
    from4326_to3857 lat lon = spec_sphericalMercator lat lon := by
  unfold from4326_to3857 spec_sphericalMercator EARTH_EQUATORIAL_RADIUS
  have harg : (45 + lat / 2) * Real.pi / 180 = Real.pi / 4 + lat * Real.pi / 180 / 2 := by
    ring
  rw [harg]
  exact Prod.ext (by ring) (by ring)

/-- C7: the geotransform written by `draw_tile` equals
`(min(x0_m, x1_m), pixel_width, 0, max(y0_m, y1_m), 0, -pixel_height)`
with the corners projected by spherical Mercator (radius 6378137.0 m)
and pixel sizes `|Δx| / width`, `|Δy| / height`. -/
theorem c7_geotransform (lat0 lon0 lat1 lon1 : ℝ) (w h : ℕ) :
    drawTileGeoTransform lat0 lon0 lat1 lon1 w h =
      spec_geoTransform lat0 lon0 lat1 lon1 w h := by
  simp only [drawTileGeoTransform, spec_geoTransform, from4326_to3857_eq_spec]

/-- A `none` tile leaves canvas and `base_size` unchanged and pastes
nothing: its region of the canvas keeps the transparent/blank fill. -/
theorem paste_tile_none (bigim : Option Img) (bs : ℕ × ℕ) (c : ℤ × ℤ)
    (bbox : TileBbox) : paste_tile bigim bs none c bbox = ⟨bigim, bs, false⟩ := rfl

/-- Pasting any tile onto an existing canvas keeps the canvas mode. -/
theorem paste_tile_mode (b : Img) (bs : ℕ × ℕ) (t : Option Img) (c : ℤ × ℤ)
    (bbox : TileBbox) :
    ((paste_tile (some b) bs t c bbox).canvas).map Img.mode = some b.mode := by
  cases t with
  | none => rfl
  | some im =>
    simp only [paste_tile]
    repeat' split
    all_goals rfl

/-- The lazily allocated canvas takes its mode from the first decoded
tile: `RGB` iff that tile is RGB, `RGBA` otherwise. -/
theorem paste_tile_alloc_mode (bs : ℕ × ℕ) (im : Img) (c : ℤ × ℤ)
    (bbox : TileBbox) :
    ((paste_tile none bs (some im) c bbox).canvas).map Img.mode =
      some (if im.mode = Mode.RGB then Mode.RGB else Mode.RGBA) := by
  cases him : im.mode with
  | RGB => simp [paste_tile, him, Img.paste, Image_new]
  | RGBA =>
    simp only [paste_tile, him]
    repeat' split
    all_goals rfl

/-- Once the canvas exists, its mode never changes through the rest of
the compositing fold. -/
theorem composite_fold_mode (bbox : TileBbox)
    (tiles : List (Option Img × (ℤ × ℤ))) :
    ∀ (b : Img) (bs : ℕ × ℕ),
      ((tiles.foldl (compositeStep bbox) (some b, bs)).1).map Img.mode =
        some b.mode := by
  induction tiles with
  | nil => intro b bs; rfl
  | cons t rest ih =>
    intro b bs
    rw [List.foldl_cons]
    have h := paste_tile_mode b bs t.1 t.2 bbox
    obtain ⟨b2, hc, hm⟩ : ∃ b2,
        (paste_tile (some b) bs t.1 t.2 bbox).canvas = some b2 ∧
          b2.mode = b.mode := by
      cases hcv : (paste_tile (some b) bs t.1 t.2 bbox).canvas with
      | none => rw [hcv] at h; simp at h
      | some b2 =>
        rw [hcv] at h
        simp at h
        exact ⟨b2, rfl, h⟩
    have hstep : compositeStep bbox (some b, bs) t
        = (some b2, (paste_tile (some b) bs t.1 t.2 bbox).base) := by
      show ((paste_tile (some b) bs t.1 t.2 bbox).canvas,
            (paste_tile (some b) bs t.1 t.2 bbox).base) = _
      rw [hc]
    rw [hstep, ih b2 _, hm]

/-- C3 (amended): the canvas mode is decided solely by the first decoded
tile — `RGB` if that tile is RGB, `RGBA` otherwise — and is never
upgraded by later tiles. -/
theorem c3_first_tile_mode (tiles : List (Option Img × (ℤ × ℤ)))
    (bbox : TileBbox) (im : Img)
    (h : (tiles.filterMap fun t => t.1).head? = some im) :
    ((composite tiles bbox).1).map Img.mode =
      some (if im.mode = Mode.RGB then Mode.RGB else Mode.RGBA) := by
  unfold composite
  induction tiles with
  | nil => simp at h
  | cons t rest ih =>
    rw [List.foldl_cons]
    cases ht : t.1 with
    | none =>
      have hfm : ((t :: rest).filterMap fun t2 => t2.1)
          = rest.filterMap fun t2 => t2.1 :=
        List.filterMap_cons_none ht
      rw [hfm] at h
      have hstep : compositeStep bbox (none, (256, 256)) t = (none, (256, 256)) := by
        show ((paste_tile none (256, 256) t.1 t.2 bbox).canvas,
              (paste_tile none (256, 256) t.1 t.2 bbox).base) = _
        rw [ht]
        rfl
      rw [hstep]
      exact ih h
    | some im0 =>
      have hfm : ((t :: rest).filterMap fun t2 => t2.1)
          = im0 :: rest.filterMap fun t2 => t2.1 :=
        List.filterMap_cons_some ht
      rw [hfm] at h
      simp only [List.head?_cons, Option.some.injEq] at h
      subst h
      have halloc := paste_tile_alloc_mode (256, 256) im0 t.2 bbox
      obtain ⟨b2, hc, hm⟩ : ∃ b2,
          (paste_tile none (256, 256) (some im0) t.2 bbox).canvas = some b2 ∧
            b2.mode = (if im0.mode = Mode.RGB then Mode.RGB else Mode.RGBA) := by
        cases hcv : (paste_tile none (256, 256) (some im0) t.2 bbox).canvas with
        | none => rw [hcv] at halloc; simp at halloc
        | some b2 =>
          rw [hcv] at halloc
          simp at halloc
          exact ⟨b2, rfl, halloc⟩
      have hstep : compositeStep bbox (none, (256, 256)) t
          = (some b2, (paste_tile none (256, 256) (some im0) t.2 bbox).base) := by
        show ((paste_tile none (256, 256) t.1 t.2 bbox).canvas,
              (paste_tile none (256, 256) t.1 t.2 bbox).base) = _
        rw [ht, hc]
      rw [hstep, composite_fold_mode bbox rest b2 _, hm]

/-- Witness for `c3_first_tile_mode`: a single RGBA tile gives an RGBA
canvas. -/
theorem c3_first_tile_mode_witness :
    (([((some rgbaTile : Option Img), ((0 : ℤ), (0 : ℤ)))].filterMap
        fun t => t.1).head? = some rgbaTile) ∧
    ((composite [(some rgbaTile, (0, 0))] demoBbox).1).map Img.mode =
      some (if rgbaTile.mode = Mode.RGB then Mode.RGB else Mode.RGBA) :=
  ⟨rfl, c3_first_tile_mode _ _ _ rfl⟩

/-- C3 counterexample: a grid whose first decoded tile is RGB and whose
second tile is RGBA (with an alpha channel) composites into an RGB
canvas — the canvas mode is not upgraded to RGBA. -/
theorem c3_counterexample :
    (demoTiles.map fun t => t.1.map Img.mode)
        = [some Mode.RGB, some Mode.RGBA] ∧
    ((composite demoTiles demoBbox).1).map Img.mode = some Mode.RGB := by
  constructor
  · rfl
  · rfl

/-- C4 counterexample: an all-black RGB tile is `is_empty`, yet
`paste_tile` pastes it anyway — the emptiness check is not performed for
RGB-mode tiles. -/
theorem c4_counterexample :
    is_empty blackRGBTile = true ∧
    (paste_tile none (256, 256) (some blackRGBTile) (0, 0) demoBbox).pasted
      = true := by
  constructor
  · rfl
  · rfl

/-- C4 (amended): for a decoded tile at grid corner `(cx, cy)` with
`cx ≥ bbox.x0`, `cy ≥ bbox.y0`: an RGB tile is always pasted; any other
tile is converted to RGBA and pasted iff it is not `is_empty`; and a
pasted tile lands on the (possibly freshly allocated) canvas at pixel
offset `((cx - bbox.x0) * tile_w, (cy - bbox.y0) * tile_h)`. -/
theorem c4_paste_semantics (bigim : Option Img) (bs : ℕ × ℕ) (im : Img)
    (cx cy : ℤ) (bbox : TileBbox) (hx : bbox.x0 ≤ cx) (hy : bbox.y0 ≤ cy) :
    (paste_tile bigim bs (some im) (cx, cy) bbox).pasted =
      (decide (im.mode = Mode.RGB) ||
        !is_empty (if im.mode = Mode.RGB then im else im.convert Mode.RGBA)) ∧
    ((paste_tile bigim bs (some im) (cx, cy) bbox).pasted = true →
      (paste_tile bigim bs (some im) (cx, cy) bbox).canvas =
        some ((allocCanvas bigim im bbox).paste
          (if im.mode = Mode.RGB then im else im.convert Mode.RGBA)
          (im.w * (cx - bbox.x0).toNat, im.h * (cy - bbox.y0).toNat))) := by
  have hax : (cx - bbox.x0).natAbs = (cx - bbox.x0).toNat := by omega
  have hay : (cy - bbox.y0).natAbs = (cy - bbox.y0).toNat := by omega
  cases him : im.mode with
  | RGB =>
    constructor
    · simp [paste_tile, him]
    · intro _
      cases bigim with
      | none => simp [paste_tile, allocCanvas, him, hax, hay]
      | some b => simp [paste_tile, allocCanvas, him, hax, hay]
  | RGBA =>
    have hconv : im.convert Mode.RGBA = im := by
      rw [Img.convert, if_pos him]
    cases he : is_empty im with
    | true =>
      constructor
      · simp [paste_tile, him, hconv, he]
      · intro hp
        exfalso
        simp [paste_tile, him, hconv, he] at hp
    | false =>
      constructor
      · simp [paste_tile, him, hconv, he]
      · intro _
        cases bigim with
        | none => simp [paste_tile, allocCanvas, him, hconv, he, hax, hay]
        | some b => simp [paste_tile, allocCanvas, him, hconv, he, hax, hay]

/-- Witness for `c4_paste_semantics`: the first decoded tile is the
solid RGBA demo tile at corner `(0, 0)` of the demo bbox. -/
theorem c4_paste_semantics_witness :
    (paste_tile none (256, 256) (some rgbaTile) (0, 0) demoBbox).pasted =
      (decide (rgbaTile.mode = Mode.RGB) ||
        !is_empty (if rgbaTile.mode = Mode.RGB then rgbaTile
          else rgbaTile.convert Mode.RGBA)) ∧
    ((paste_tile none (256, 256) (some rgbaTile) (0, 0) demoBbox).pasted = true →
      (paste_tile none (256, 256) (some rgbaTile) (0, 0) demoBbox).canvas =
        some ((allocCanvas none rgbaTile demoBbox).paste
          (if rgbaTile.mode = Mode.RGB then rgbaTile
            else rgbaTile.convert Mode.RGBA)
          (rgbaTile.w * ((0 : ℤ) - demoBbox.x0).toNat,
           rgbaTile.h * ((0 : ℤ) - demoBbox.y0).toNat))) :=
  c4_paste_semantics none (256, 256) rgbaTile 0 0 demoBbox (by decide) (by decide)

/-- Compositing all-`none` tiles never allocates a canvas. -/
theorem composite_all_none (bbox : TileBbox) :
    ∀ tiles : List (Option Img × (ℤ × ℤ)), (∀ t ∈ tiles, t.1 = none) →
      composite tiles bbox = (none, (256, 256)) := by
  intro tiles
  unfold composite
  induction tiles with
  | nil => intro _; rfl
  | cons t rest ih =>
    intro h
    rw [List.foldl_cons]
    have ht : t.1 = none := h t (List.mem_cons_self t rest)
    have hstep : compositeStep bbox (none, (256, 256)) t = (none, (256, 256)) := by
      show ((paste_tile none (256, 256) t.1 t.2 bbox).canvas,
            (paste_tile none (256, 256) t.1 t.2 bbox).base) = _
      rw [ht]
      rfl
    rw [hstep]
    exact ih fun t2 ht2 => h t2 (List.mem_cons_of_mem t ht2)

/-- C5: if every tile fetch returned `None` (zero tiles decoded), the
compositing tail of `draw_tile` raises a hard error — `finish_picture`
crashes on the `None` canvas — so `driver.Create` is never reached and
no output raster file is written. -/
theorem c5_zero_tiles (tiles : List (Option Img × (ℤ × ℤ))) (bbox : TileBbox)
    (x0 y0 x1 y1 : ℝ) (h : ∀ t ∈ tiles, t.1 = none) :
    drawTileSave tiles bbox x0 y0 x1 y1 = .error attribute_error_msg := by
  simp only [drawTileSave]
  rw [composite_all_none bbox tiles h]
  rfl

/-- Witness for `c5_zero_tiles` with a single absent tile. -/
theorem c5_zero_tiles_witness :
    drawTileSave [((none : Option Img), ((0 : ℤ), (0 : ℤ)))] demoBbox 0 0 1 1 =
      .error attribute_error_msg :=
  c5_zero_tiles _ _ _ _ _ _ fun t ht => by rw [List.mem_singleton.mp ht]

/-- `paste_tile` yields a canvas whenever one existed or the tile is
decoded. -/
theorem paste_tile_isSome (bigim : Option Img) (bs : ℕ × ℕ) (t : Option Img)
    (c : ℤ × ℤ) (bbox : TileBbox)
    (h : bigim.isSome = true ∨ t.isSome = true) :
    ((paste_tile bigim bs t c bbox).canvas).isSome = true := by
  cases t with
  | none =>
    rcases h with h | h
    · exact h
    · simp at h
  | some im =>
    simp only [paste_tile]
    repeat' split
    all_goals rfl

/-- The compositing fold yields a canvas whenever at least one tile is
decoded (or a canvas already existed). -/
theorem composite_some_of_mem (bbox : TileBbox) :
    ∀ (tiles : List (Option Img × (ℤ × ℤ))) (init : Option Img × (ℕ × ℕ)),
      (init.1.isSome = true ∨ ∃ t ∈ tiles, t.1.isSome = true) →
      ((tiles.foldl (compositeStep bbox) init).1).isSome = true := by
  intro tiles
  induction tiles with
  | nil =>
    intro init h
    rcases h with h | ⟨t, ht, _⟩
    · exact h
    · exact absurd ht (List.not_mem_nil t)
  | cons t rest ih =>
    intro init h
    rw [List.foldl_cons]
    apply ih
    rcases h with h | ⟨t2, ht2, hsome⟩
    · left
      exact paste_tile_isSome _ _ _ _ _ (Or.inl h)
    · rcases List.mem_cons.mp ht2 with rfl | hmem
      · left
        exact paste_tile_isSome _ _ _ _ _ (Or.inr hsome)
      · right
        exact ⟨t2, hmem, hsome⟩

/-- With at least one decoded tile, the compositing tail of `draw_tile`
completes normally. -/
theorem drawTileSave_ok_of_some (tiles : List (Option Img × (ℤ × ℤ)))
    (bbox : TileBbox) (x0 y0 x1 y1 : ℝ)
    (h : ∃ t ∈ tiles, t.1.isSome = true) :
    exceptOk (drawTileSave tiles bbox x0 y0 x1 y1) = true := by
  have hsome := composite_some_of_mem bbox tiles (none, (256, 256)) (Or.inr h)
  obtain ⟨b, hb⟩ := Option.isSome_iff_exists.mp hsome
  simp only [drawTileSave, composite]
  rw [hb]
  rfl

/-- A successful response on the first attempt ends the retry loop. -/
theorem sessionGetLoop_ok (a : ℕ → Except Unit HttpResponse) (fuel i : ℕ)
    (r : HttpResponse) (h : a i = .ok r) :
    sessionGetLoop a (fuel + 1) i = .ok r := by
  simp only [sessionGetLoop]
  rw [h]

/-- A transport error consumes one unit of the retry budget. -/
theorem sessionGetLoop_err (a : ℕ → Except Unit HttpResponse) (fuel i : ℕ)
    (h : a i = .error ()) :
    sessionGetLoop a (fuel + 1) i = sessionGetLoop a fuel (i + 1) := by
  simp only [sessionGetLoop]
  rw [h]

/-- Three consecutive transport errors exhaust the budget and the
exception propagates. -/
theorem sessionGetLoop_three_err (a : ℕ → Except Unit HttpResponse)
    (h0 : a 0 = .error ()) (h1 : a 1 = .error ()) (h2 : a 2 = .error ()) :
    sessionGetLoop a 3 0 = .error transport_error_msg := by
  show sessionGetLoop a (2 + 1) 0 = _
  rw [sessionGetLoop_err a 2 0 h0]
  show sessionGetLoop a (1 + 1) 1 = _
  rw [sessionGetLoop_err a 1 1 h1]
  show sessionGetLoop a (0 + 1) 2 = _
  rw [sessionGetLoop_err a 0 2 h2]
  rfl

/-- C8: a response with HTTP status 404, or with an empty body, makes
`get_tile` return `None` (soft absence, not an error); a `None` tile is
skipped by `paste_tile`, leaving its canvas region as the blank/
transparent fill; and the operation still completes whenever at least
one other tile is decoded. -/
theorem c8_soft_absent (a1 a2 : ℕ → Except Unit HttpResponse)
    (r1 r2 : HttpResponse)
    (h1 : a1 0 = .ok r1) (h1s : r1.status = 404)
    (h2 : a2 0 = .ok r2) (h2c : r2.content = [])
    (bigim : Option Img) (bs : ℕ × ℕ) (c : ℤ × ℤ) (bbox : TileBbox)
    (tiles : List (Option Img × (ℤ × ℤ))) (x0 y0 x1 y1 : ℝ)
    (hsome : ∃ t ∈ tiles, t.1.isSome = true) :
    get_tile a1 = .ok none ∧ get_tile a2 = .ok none ∧
    paste_tile bigim bs none c bbox = ⟨bigim, bs, false⟩ ∧
    exceptOk (drawTileSave tiles bbox x0 y0 x1 y1) = true := by
  refine ⟨?_, ?_, rfl, drawTileSave_ok_of_some tiles bbox x0 y0 x1 y1 hsome⟩
  · have hloop : sessionGetLoop a1 3 0 = .ok r1 := sessionGetLoop_ok a1 2 0 r1 h1
    simp only [get_tile, hloop]
    simp [h1s]
  · have hloop : sessionGetLoop a2 3 0 = .ok r2 := sessionGetLoop_ok a2 2 0 r2 h2
    simp only [get_tile, hloop]
    by_cases hs : r2.status = 404
    · simp [hs]
    · simp [hs, h2c]

/-- Witness for `c8_soft_absent`: a 404 response, an empty-body
response, and a one-tile grid whose tile is decoded. -/
theorem c8_soft_absent_witness :
    get_tile (fun _ => .ok ⟨404, [9]⟩) = .ok none ∧
    get_tile (fun _ => .ok ⟨200, []⟩) = .ok none ∧
    paste_tile none (256, 256) none (0, 0) demoBbox = ⟨none, (256, 256), false⟩ ∧
    exceptOk (drawTileSave [(some rgbTile, (0, 0))] demoBbox 0 0 1 1) = true :=
  c8_soft_absent (fun _ => .ok ⟨404, [9]⟩) (fun _ => .ok ⟨200, []⟩)
    ⟨404, [9]⟩ ⟨200, []⟩ rfl rfl rfl rfl none (256, 256) (0, 0) demoBbox
    [(some rgbTile, (0, 0))] 0 0 1 1
    ⟨(some rgbTile, (0, 0)), List.mem_singleton.mpr rfl, rfl⟩

/-- An error among the collected fetch results aborts the whole
collection. -/
theorem fetchAll_error {α : Type} (e : String) :
    ∀ rs : List (Except String α), Except.error e ∈ rs →
      exceptOk (fetchAll rs) = false := by
  intro rs
  induction rs with
  | nil => intro h; exact absurd h (List.not_mem_nil _)
  | cons r rest ih =>
    intro h
    rcases List.mem_cons.mp h with rfl | hmem
    · rfl
    · cases r with
      | error e2 => rfl
      | ok a =>
        have hrest := ih hmem
        simp only [fetchAll]
        cases hfa : fetchAll rest with
        | error e2 => rfl
        | ok l =>
          rw [hfa] at hrest
          simp [exceptOk] at hrest

/-- C9: transport failures are retried up to the fixed budget of 3
attempts: with all attempts failing, `get_tile` propagates the transport
exception; with the third attempt succeeding, the tile is fetched; and a
propagated fetch exception aborts the whole result collection of the
mosaic operation. -/
theorem c9_retry (a1 a2 : ℕ → Except Unit HttpResponse) (r : HttpResponse)
    (h1 : ∀ i, a1 i = .error ())
    (h2a : a2 0 = .error ()) (h2b : a2 1 = .error ()) (h2c : a2 2 = .ok r)
    (h2s : r.status = 200) (h2n : r.content ≠ [])
    (rs : List (Except String (Option (List ℕ)))) (e : String)
    (he : Except.error e ∈ rs) :
    get_tile a1 = .error transport_error_msg ∧
    get_tile a2 = .ok (some r.content) ∧
    exceptOk (fetchAll rs) = false := by
  refine ⟨?_, ?_, fetchAll_error e rs he⟩
  · have hloop : sessionGetLoop a1 3 0 = .error transport_error_msg :=
      sessionGetLoop_three_err a1 (h1 0) (h1 1) (h1 2)
    simp only [get_tile, hloop]
  · have hloop : sessionGetLoop a2 3 0 = .ok r := by
      show sessionGetLoop a2 (2 + 1) 0 = _
      rw [sessionGetLoop_err a2 2 0 h2a]
      show sessionGetLoop a2 (1 + 1) 1 = _
      rw [sessionGetLoop_err a2 1 1 h2b]
      exact sessionGetLoop_ok a2 0 2 r h2c
    simp only [get_tile, hloop]
    simp [h2s, h2n]

/-- Witness for `c9_retry`: all attempts fail for the first fetcher, the
first two fail for the second, and one collected result is an error. -/
theorem c9_retry_witness :
    get_tile (fun _ => .error ()) = .error transport_error_msg ∧
    get_tile (fun i => if i < 2 then .error () else .ok ⟨200, [7]⟩) =
      .ok (some (⟨200, [7]⟩ : HttpResponse).content) ∧
    exceptOk (fetchAll [(Except.error "boom" : Except String (Option (List ℕ)))])
      = false :=
  c9_retry (fun _ => .error ())
    (fun i => if i < 2 then .error () else .ok ⟨200, [7]⟩) ⟨200, [7]⟩
    (fun _ => rfl) rfl rfl rfl rfl (by decide)
    [Except.error "boom"] "boom" (List.mem_singleton.mpr rfl)

/-- C10: a non-404 error status (e.g. 500) with an empty body is treated
as a soft absent tile (`None`), because the empty-body check precedes
`raise_for_status()`; the status error is raised only when the body is
nonempty. -/
theorem c10_empty_body_before_status (a1 a2 : ℕ → Except Unit HttpResponse)
    (r1 r2 : HttpResponse)
    (h1 : a1 0 = .ok r1) (h1s : r1.status = 500) (h1c : r1.content = [])
    (h2 : a2 0 = .ok r2) (h2s : r2.status = 500) (h2c : r2.content ≠ []) :
    get_tile a1 = .ok none ∧ get_tile a2 = .error http_status_error_msg := by
  constructor
  · have hloop : sessionGetLoop a1 3 0 = .ok r1 := sessionGetLoop_ok a1 2 0 r1 h1
    simp only [get_tile, hloop]
    simp [h1s, h1c]
  · have hloop : sessionGetLoop a2 3 0 = .ok r2 := sessionGetLoop_ok a2 2 0 r2 h2
    simp only [get_tile, hloop]
    simp [h2s, h2c]

/-- Witness for `c10_empty_body_before_status` at status 500 with empty
and nonempty bodies. -/
theorem c10_empty_body_before_status_witness :
    get_tile (fun _ => .ok ⟨500, []⟩) = .ok none ∧
    get_tile (fun _ => .ok ⟨500, [1]⟩) = .error http_status_error_msg :=
  c10_empty_body_before_status (fun _ => .ok ⟨500, []⟩)
    (fun _ => .ok ⟨500, [1]⟩) ⟨500, []⟩ ⟨500, [1]⟩
    rfl rfl rfl rfl rfl (by decide)

end Leafmap
